import Mathlib

/-
Verification of the release-packaging pipeline in
.github/workflows/scripts/deployment/release_apple.py.

The script is embedded shallowly:

* The three perl one-liners run by preparePackageManifest and the one run by
  cleanUpPackageManifest are global regex substitutions over the whole file
  (perl -i -p0e slurps the file as a single record).  Their semantics is
  modelled by scanning functions over List Char:
    - s/type: .static,//g    removes every occurrence of the pattern
      "type: " followed by any single non-newline character followed by
      "static," (the dot of the regex matches any character);
    - s/type: .dynamic,//g   likewise with "dynamic,";
    - s/(library[^,]*,)/$1 type: .dynamic,/g  inserts " type: .dynamic,"
      after every occurrence of "library" followed by a shortest run of
      non-comma characters ending at a comma;
    - s/type: .dynamic, //g  removes every occurrence of the pattern with a
      trailing space.
  As in perl, scanning is left to right, a match consumes its text, and
  replacement text is not rescanned.

* Python values, the filesystem and the external subprocesses are modelled
  further below, where the pipeline entry point is embedded.
-/

/-- Matches the regex fragment "type: ." followed by the literal tail
    standing at the head of the input: six literal characters "type: ",
    one arbitrary non-newline character (the regex dot), then the literal
    tail.  Returns the remainder after the match. -/
def matchTypeAnn (lit : List Char) : List Char → Option (List Char)
  | 't' :: 'y' :: 'p' :: 'e' :: ':' :: ' ' :: c :: rest =>
    if c != '\n' && lit.isPrefixOf rest then some (rest.drop lit.length) else none
  | _ => none

/-- Global removal of occurrences of the pattern recognised by
    matchTypeAnn, scanning left to right.  The counter holds the number of
    already-matched characters still to be consumed, so the recursion is
    structural in the text. -/
def stripGo (lit : List Char) : List Char → Nat → List Char
  | [], _ => []
  | _ :: s, k + 1 => stripGo lit s k
  | c :: s, 0 =>
    match matchTypeAnn lit (c :: s) with
    | some _ => stripGo lit s (6 + lit.length)
    | none => c :: stripGo lit s 0

/-- One global substitution s/type: .LIT//g over the manifest text. -/
def stripTypeAnn (lit : List Char) (s : List Char) : List Char :=
  stripGo lit s 0

/-- Splits the input at its first comma: the left part has no comma and the
    comma itself is consumed.  This is how the greedy regex fragment
    "[^,]*," matches. -/
def splitAtComma : List Char → Option (List Char × List Char)
  | [] => none
  | c :: s =>
    if c = ',' then some ([], s)
    else (splitAtComma s).map (fun p => (c :: p.1, p.2))

/-- Matches the regex "library[^,]*," at the head of the input, returning
    the matched text and the remainder. -/
def matchLib : List Char → Option (List Char × List Char)
  | 'l' :: 'i' :: 'b' :: 'r' :: 'a' :: 'r' :: 'y' :: rest =>
    (splitAtComma rest).map (fun p => ('l' :: 'i' :: 'b' :: 'r' :: 'a' :: 'r' :: 'y' :: p.1 ++ [','], p.2))
  | _ => none

/-- The text inserted by the third perl substitution after each matched
    "library[^,]*," group. -/
def insDyn : List Char := " type: .dynamic,".data

/-- Global substitution s/(library[^,]*,)/$1 type: .dynamic,/g.  The
    counter holds the number of already-matched characters still to emit;
    when it reaches one, the final matched character (the comma) is emitted
    followed by the inserted text. -/
def insertGo : List Char → Nat → List Char
  | [], _ => []
  | c :: s, 0 =>
    match matchLib (c :: s) with
    | some (m, _) => c :: insertGo s (m.length - 1)
    | none => c :: insertGo s 0
  | c :: s, 1 => c :: (insDyn ++ insertGo s 0)
  | c :: s, k + 2 => c :: insertGo s (k + 1)

/-- The insertion substitution applied to a whole manifest. -/
def insertDynamic (s : List Char) : List Char :=
  insertGo s 0

/-- preparePackageManifest from the script: removes every static
    annotation, removes every dynamic annotation, then inserts a dynamic
    annotation after every library group, in that order. -/
def preparePackageManifest (m : List Char) : List Char :=
  insertDynamic (stripTypeAnn "dynamic,".data (stripTypeAnn "static,".data m))

/-- cleanUpPackageManifest from the script: removes every occurrence of
    "type: .dynamic, " including the trailing space. -/
def cleanUpPackageManifest (m : List Char) : List Char :=
  stripTypeAnn "dynamic, ".data m

/-- Decidable test: some position of the text matches the type-annotation
    pattern with the given literal tail. -/
def occursTypeAnn (lit : List Char) : List Char → Bool
  | [] => false
  | c :: s => (matchTypeAnn lit (c :: s)).isSome || occursTypeAnn lit s

/-- Decidable test: some position of the text matches "library[^,]*,". -/
def occursLib : List Char → Bool
  | [] => false
  | c :: s => (matchLib (c :: s)).isSome || occursLib s

/-
Python values appearing in the package dump.  The JSON array bound to the
key "platforms" holds objects; each object carries a platformName field.
The script compares such an object directly against the Python string
"macos", and in Python an object (dict) never equals a string, so the
comparison is modelled by constructor inspection.
-/

/-- A Python value as handled by desiredPlatforms: either a string or a
    JSON object with a platformName entry. -/
inductive PyVal where
  | str (s : String)
  | dict (platformName : String)
deriving DecidableEq, Repr

/-- Python equality of a value against the string literal "macos": a dict
    is never equal to a string. -/
def pyEqMacosStr : PyVal → Bool
  | .str s => s == "macos"
  | .dict _ => false

/-- Python exceptions that the script can raise. -/
inductive PyErr where
  | keyError (k : String)
  | fileNotFound (p : String)
  | fileExists (p : String)
  | typeError
deriving DecidableEq, Repr

/-- desiredPlatforms from the script.  The loop body is
    "if platform != 'macos': output.append(platform['platformName'])";
    the comparison is against the whole JSON object, and subscripting a
    string raises TypeError. -/
def desiredPlatforms : List PyVal → Except PyErr (List String)
  | [] => .ok []
  | platform :: rest =>
    if pyEqMacosStr platform then desiredPlatforms rest
    else
      match platform with
      | .dict n => (desiredPlatforms rest).map (fun out => n :: out)
      | .str _ => .error .typeError

/-
Filesystem model.  The working directory of the run is the constant pwd.
The filesystem is a list of existing paths in normalised absolute form; a
path exists when it is one of the stored paths or an ancestor directory of
one.  Normalisation resolves the relative spellings used by the script:
a leading "./" and plain relative paths resolve against pwd, and a
trailing "/." (used by the cp -r source arguments) is dropped.
-/

/-- The resolved working directory (pathlib.Path().resolve()). -/
def pwd : String := "/work"

/-- Drops a trailing "/." from a path spelling. -/
def stripTrailingDot (l : List Char) : List Char :=
  if ['.', '/'].isPrefixOf l.reverse then l.take (l.length - 2) else l

/-- Drops a leading "./" from a path spelling. -/
def stripLeadingDotSlash (l : List Char) : List Char :=
  if ['.', '/'].isPrefixOf l then l.drop 2 else l

/-- Normalises a path as spelled in the script to absolute form. -/
def normPath (p : String) : String :=
  let q := stripTrailingDot p.data
  if ['/'].isPrefixOf q then String.mk q
  else String.mk (pwd.data ++ '/' :: stripLeadingDotSlash q)

/-- q lies inside the subtree rooted at p (or is p itself); both paths
    normalised. -/
def isUnder (q p : String) : Bool :=
  q == p || (p.data ++ ['/']).isPrefixOf q.data

/-- os.path.exists on the modelled filesystem: p exists when some stored
    path lies at or below p. -/
def fsExists (fs : List String) (p : String) : Bool :=
  fs.any (fun q => isUnder q p)

/-- The parent directory of a normalised path. -/
def parentOf (p : String) : String :=
  String.mk (((p.data.reverse.dropWhile (fun c => c != '/')).drop 1).reverse)

/-- os.mkdir: fails if the path already exists or its parent does not. -/
def osMkdir (fs : List String) (p0 : String) : Except PyErr (List String) :=
  let p := normPath p0
  if fsExists fs p then .error (.fileExists p)
  else if fsExists fs (parentOf p) then .ok (p :: fs)
  else .error (.fileNotFound p)

/-- shutil.rmtree: removes the whole subtree, failing if the path does not
    exist. -/
def rmtree (fs : List String) (p0 : String) : Except PyErr (List String) :=
  let p := normPath p0
  if fsExists fs p then .ok (fs.filter (fun q => !(isUnder q p)))
  else .error (.fileNotFound p)

/-- shutil.move: renames the subtree at src to dst, failing if src does
    not exist. -/
def fsMove (fs : List String) (src0 dst0 : String) : Except PyErr (List String) :=
  let src := normPath src0
  let dst := normPath dst0
  if fsExists fs src then
    .ok (fs.map (fun q => if isUnder q src then String.mk (dst.data ++ q.data.drop src.data.length) else q))
  else .error (.fileNotFound src)

/-- Last component of a path spelling. -/
def basenameOf (p : String) : String :=
  String.mk ((p.data.reverse.takeWhile (fun c => c != '/')).reverse)

/-- Filesystem effect of cp -a src target (copyFilesTo): copies src into
    the target directory when src exists.  The cp subprocess cannot raise
    a Python exception and its exit status is discarded by the script. -/
def cpAFs (fs : List String) (src dst : String) : List String :=
  let s := normPath src
  if fsExists fs s then (normPath dst ++ "/" ++ basenameOf s) :: fs else fs

/-- Filesystem effect of cp -r src dst (copyRecursive): creates dst with
    the contents of src when src exists; its exit status is likewise
    discarded. -/
def cpRFs (fs : List String) (src dst : String) : List String :=
  if fsExists fs (normPath src) then normPath dst :: fs else fs

/-
Command construction, traced external invocations and the pipeline entry
point.
-/

/-- The derivedDataPath constant of the script. -/
def derivedDataPath : String := "./.derivedData"

/-- The fixed xcodebuild option block of the script. -/
def defaultXcodeBuildOptions (libraryName : String) : List String :=
  ["-configuration", "Release",
   "-workspace", ".",
   "-scheme", libraryName,
   "-usePackageSupportBuiltinSCM",
   "-derivedDataPath", derivedDataPath,
   "CODE_SIGNING_REQUIRED=NO",
   "CODE_SIGNING_ALLOWED=NO",
   "ONLY_ACTIVE_ARCH=NO",
   "SKIP_INSTALL=NO",
   "ENABLE_BITCODE=YES",
   "BITCODE_GENERATION_MODE=bitcode",
   "BUILD_LIBRARY_FOR_DISTRIBUTION=YES"]

/-- The destination-to-architecture table local to archiveFramework,
    exactly as written in the script (note the lowercase s of the tvos
    simulator key). -/
def destMap : List (String × String) :=
  [("ios", "iphoneos"),
   ("ios Simulator", "iphonesimulator"),
   ("watchos", "watchos"),
   ("watchos Simulator", "watchossimulator"),
   ("tvos", "tvos"),
   ("tvos simulator", "tvossimulator")]

/-- Python dict subscripting on destMap; a missing key means KeyError. -/
def destLookup (k : String) : Option String :=
  (destMap.find? (fun kv => kv.1 == k)).map (fun kv => kv.2)

/-- One traced external invocation performed by the script. -/
inductive Call where
  | perl (script : String)
  | swiftDumpPackage
  | xcodebuildArchive (options : List String) (destination : String) (archivePath : String)
  | cpArchive (src dst : String)
  | cpRecursive (src dst : String)
  | createXcframework (params : List String)
deriving DecidableEq, Repr

/-- The mutable state of a run: the filesystem, the manifest file content,
    and the list of external invocations issued so far. -/
structure St where
  fs : List String
  manifest : List Char
  trace : List Call
deriving DecidableEq, Repr

/-- The behaviour of the external world: the platforms array of the
    package dump, which archive invocations produce their archive tree,
    and whether the bundling invocation produces its output. -/
structure Env where
  platformsJSON : List PyVal
  archiveOK : String → Bool
  xcframeworkOK : Bool

/-- The perl scripts run by the manifest transformer, as spelled in the
    source; their substitution semantics is the string layer above. -/
def removeStaticScript : String := "s/type: .static,//g"

/-- Second preparePackageManifest substitution. -/
def removeDynamicScript : String := "s/type: .dynamic,//g"

/-- Third preparePackageManifest substitution. -/
def setDynamicScript : String := "s/(library[^,]*,)/$1 type: .dynamic,/g"

/-- The cleanUpPackageManifest substitution. -/
def cleanupScript : String := "s/type: .dynamic, //g"

/-- archiveFramework from the script.  The xcodebuild exit status is
    discarded (subprocess.run without check); on success the toolchain
    creates the archive tree.  Then os.mkdir of the Modules directory can
    raise, the destination lookup can raise KeyError, and the cp -a of the
    swiftmodule again has its status discarded.  Errors carry the state at
    the raise point. -/
def archiveFramework (env : Env) (libraryName derivedData archivePath destination : String) (st : St) : Except (PyErr × St) St :=
  let fs1 :=
    if env.archiveOK archivePath then
      normPath (archivePath ++ ".xcarchive/Products/usr/local/lib/" ++ libraryName ++ ".framework") ::
      normPath (archivePath ++ ".xcarchive/dSYMs/" ++ libraryName ++ ".framework.dSYM") :: st.fs
    else st.fs
  let st1 : St :=
    { fs := fs1, manifest := st.manifest,
      trace := st.trace ++ [Call.xcodebuildArchive (defaultXcodeBuildOptions libraryName) destination archivePath] }
  let archive := "./" ++ archivePath ++ ".xcarchive"
  let frameworkPath := archive ++ "/Products/usr/local/lib/" ++ libraryName ++ ".framework"
  let modulePath := frameworkPath ++ "/Modules"
  match osMkdir st1.fs modulePath with
  | .error e => .error (e, st1)
  | .ok fs2 =>
    let st2 : St := { st1 with fs := fs2 }
    match destLookup destination with
    | none => .error (.keyError destination, st2)
    | some architecture =>
      let buildProducts := derivedData ++ "/Build/Intermediates.noindex/" ++ "ArchiveIntermediates/" ++ libraryName ++ "/BuildProductsPath"
      let src := buildProducts ++ "/Release-" ++ architecture ++ "/" ++ libraryName ++ ".swiftmodule"
      .ok { st2 with fs := cpAFs st2.fs src modulePath,
                     trace := st2.trace ++ [Call.cpArchive src modulePath] }

/-- copyRecursive from the script: a traced cp -r whose status is
    discarded. -/
def copyRecursive (st : St) (source target : String) : St :=
  { st with fs := cpRFs st.fs source target, trace := st.trace ++ [Call.cpRecursive source target] }

/-- The accumulator loop of createXCFramework building commandParams. -/
def xcfLoop (path libraryName : String) : List String → List String → List String
  | commandParams, [] => commandParams
  | commandParams, platform :: rest =>
    xcfLoop path libraryName
      (commandParams
        ++ ["-framework", path ++ "/" ++ platform ++ "/" ++ libraryName ++ ".framework"]
        ++ ["-debug-symbols", path ++ "/" ++ platform ++ "/dSYMs/" ++ libraryName ++ ".framework.dSYM"]
        ++ (if platform != "macos" then
              ["-framework", path ++ "/" ++ platform ++ "simulator/" ++ libraryName ++ ".framework"]
              ++ ["-debug-symbols", path ++ "/" ++ platform ++ "simulator/dSYMs/" ++ libraryName ++ ".framework.dSYM"]
            else []))
      rest

/-- The full parameter list of the single bundling invocation built by
    createXCFramework. -/
def createXCFrameworkParams (path : String) (platforms : List String) (libraryName : String) : List String :=
  xcfLoop path libraryName ["xcodebuild", "-create-xcframework"] platforms
    ++ ["-output", path ++ "/" ++ libraryName ++ ".xcframework"]

/-- createXCFramework from the script: builds commandParams and runs the
    bundling tool once.  It consults nothing on the filesystem and cannot
    raise; the tool creates the output bundle when it succeeds and its
    exit status is discarded. -/
def createXCFramework (env : Env) (st : St) (path : String) (platforms : List String) (libraryName : String) : St :=
  let params := createXCFrameworkParams path platforms libraryName
  let fs1 := if env.xcframeworkOK then normPath (path ++ "/" ++ libraryName ++ ".xcframework") :: st.fs else st.fs
  { st with fs := fs1, trace := st.trace ++ [Call.createXcframework params] }

/-- One iteration of the build loop of the entry point: device archive,
    simulator archive, then the four collection copies. -/
def loopIter (env : Env) (libraryName : String) (st : St) (platform : String) : Except (PyErr × St) St :=
  let archivePathDevice := "release/" ++ platform
  let archivePathSim := "release/" ++ platform ++ "_simulator"
  Except.bind (archiveFramework env libraryName derivedDataPath archivePathDevice "ios" st) (fun st1 =>
    Except.bind (archiveFramework env libraryName derivedDataPath archivePathSim (platform ++ " Simulator") st1) (fun st2 =>
      let st3 := copyRecursive st2 (archivePathDevice ++ ".xcarchive/Products/usr/local/lib/.") ("./binaries/" ++ platform)
      let st4 := copyRecursive st3 (archivePathDevice ++ ".xcarchive/dSYMs/.") ("./binaries/" ++ platform ++ "/dSYMs")
      let st5 := copyRecursive st4 (archivePathSim ++ ".xcarchive/Products/usr/local/lib/.") ("./binaries/" ++ platform ++ "simulator")
      let st6 := copyRecursive st5 (archivePathSim ++ ".xcarchive/dSYMs/.") ("./binaries/" ++ platform ++ "simulator/dSYMs")
      .ok st6))

/-- The build loop over the platform catalog. -/
def mainLoop (env : Env) (libraryName : String) : List String → St → Except (PyErr × St) St
  | [], st => .ok st
  | platform :: rest, st =>
    match loopIter env libraryName st platform with
    | .error es => .error es
    | .ok st1 => mainLoop env libraryName rest st1

/-- The per-platform rmtree loop of the cleanup block. -/
def rmtreeLoop : List String → List String → Except (PyErr × List String) (List String)
  | [], fs => .ok fs
  | platform :: rest, fs =>
    match rmtree fs (pwd ++ "/binaries/" ++ platform) with
    | .error e => .error (e, fs)
    | .ok fs1 =>
      match rmtree fs1 (pwd ++ "/binaries/" ++ platform ++ "simulator") with
      | .error e => .error (e, fs1)
      | .ok fs2 => rmtreeLoop rest fs2

/-- The pipeline entry point (the module-level build script).  An error
    result carries the Python exception and the state at the moment it was
    raised; in particular the manifest field is the manifest file content
    when the process dies. -/
def pipeline (env : Env) (libraryName : String) (manifest0 : List Char) (fs0 : List String) : Except (PyErr × St) St :=
  let st0 : St := { fs := fs0, manifest := manifest0, trace := [] }
  let st1 : St :=
    { st0 with manifest := preparePackageManifest st0.manifest,
               trace := st0.trace ++ [Call.perl removeStaticScript, Call.perl removeDynamicScript, Call.perl setDynamicScript] }
  let stD : St := { st1 with trace := st1.trace ++ [Call.swiftDumpPackage] }
  match desiredPlatforms env.platformsJSON with
  | .error e => .error (e, stD)
  | .ok platforms =>
    let stepB : Except (PyErr × St) St :=
      if fsExists stD.fs (normPath "./binaries") then .ok stD
      else
        match osMkdir stD.fs "binaries" with
        | .error e => .error (e, stD)
        | .ok fs => .ok { stD with fs := fs }
    match stepB with
    | .error es => .error es
    | .ok stB =>
      match mainLoop env libraryName platforms stB with
      | .error es => .error es
      | .ok stL =>
        let stX := createXCFramework env stL (pwd ++ "/binaries") platforms libraryName
        let stC : St := { stX with manifest := cleanUpPackageManifest stX.manifest,
                                   trace := stX.trace ++ [Call.perl cleanupScript] }
        match rmtree stC.fs (pwd ++ "/release") with
        | .error e => .error (e, stC)
        | .ok fs1 =>
          let stR : St := { stC with fs := fs1 }
          match rmtreeLoop platforms stR.fs with
          | .error ef => .error (ef.1, { stR with fs := ef.2 })
          | .ok fs2 =>
            match fsMove fs2 (pwd ++ "/binaries") (pwd ++ "/release") with
            | .error e => .error (e, { stR with fs := fs2 })
            | .ok fs3 => .ok { stR with fs := fs3 }

/-- Destinations of the archive invocations in a trace, paired with their
    archive paths, in order. -/
def archiveCalls (tr : List Call) : List (String × String) :=
  tr.filterMap (fun c =>
    match c with
    | .xcodebuildArchive _ destination archivePath => some (archivePath, destination)
    | _ => none)

/-- Whether a trace contains the bundling invocation. -/
def mergeInvoked (tr : List Call) : Bool :=
  tr.any (fun c => match c with | .createXcframework _ => true | _ => false)

/-- The per-platform argument block of the bundling invocation: the device
    framework paired with its debug symbols, then, unless the platform is
    macos, the simulator framework paired with its debug symbols. -/
def xcfPlatformArgs (path libraryName platform : String) : List String :=
  ["-framework", path ++ "/" ++ platform ++ "/" ++ libraryName ++ ".framework",
   "-debug-symbols", path ++ "/" ++ platform ++ "/dSYMs/" ++ libraryName ++ ".framework.dSYM"]
  ++ (if platform != "macos" then
        ["-framework", path ++ "/" ++ platform ++ "simulator/" ++ libraryName ++ ".framework",
         "-debug-symbols", path ++ "/" ++ platform ++ "simulator/dSYMs/" ++ libraryName ++ ".framework.dSYM"]
      else [])

/-- The failure kind the specification assigns to a merge over an
    incomplete staging tree. -/
inductive MergeErr where
  | incompletePlatformSet (platform : String)
deriving DecidableEq, Repr

/-- Spec-side definition of BundleMerger.merge, following the wording of
    the specification (section 4.5): the merge fails with
    IncompletePlatformSet if any platform in the catalog lacks a device or
    simulator binary-bundle path in the staging tree at merge time, and
    otherwise issues the single bundling invocation.  It exists only to be
    compared against the source-side createXCFramework above. -/
def mergeSpec (fs : List String) (path : String) (platforms : List String) (libraryName : String) : Except MergeErr (List String) :=
  match platforms.find? (fun platform =>
      !(fsExists fs (path ++ "/" ++ platform ++ "/" ++ libraryName ++ ".framework"))
      || (platform != "macos"
          && !(fsExists fs (path ++ "/" ++ platform ++ "simulator/" ++ libraryName ++ ".framework")))) with
  | some platform => .error (.incompletePlatformSet platform)
  | none => .ok (createXCFrameworkParams path platforms libraryName)

/-- An environment whose package dump declares the given platforms and
    whose external tool invocations all succeed. -/
def envAllOK (ps : List PyVal) : Env :=
  { platformsJSON := ps, archiveOK := fun _ => true, xcframeworkOK := true }

/-- An environment where the device archive invocation for ios reports a
    non-zero status (producing no archive tree) while everything else
    succeeds. -/
def envC4 : Env :=
  { platformsJSON := [PyVal.dict "ios"], archiveOK := fun p => p != "release/ios", xcframeworkOK := true }

/-- A manifest declaring a static library product. -/
def manifestStaticExample : List Char := "library(name, type: .static, targets)".data

/-- A manifest with no linkage annotation. -/
def manifestPlainExample : List Char := "library(name, targets)".data

/-- A stale filesystem left by an earlier run: the working directory plus
    a leftover device archive framework directory without a Modules
    subdirectory. -/
def fsStale : List String :=
  ["/work", "/work/release/ios.xcarchive/Products/usr/local/lib/Lib.framework"]

/-- Projection of a run result onto the outcome and the manifest content
    at process exit. -/
def runOutcome (r : Except (PyErr × St) St) : Except (PyErr × List Char) (List Char) :=
  match r with
  | .ok st => .ok st.manifest
  | .error es => .error (es.1, es.2.manifest)

/-
Helper lemmas shared by the claim theorems.
-/

/-- When no position of the text matches the type-annotation pattern, the
    global substitution leaves the text unchanged. -/
theorem stripGo_of_not_occurs (lit : List Char) :
    ∀ m : List Char, occursTypeAnn lit m = false → stripGo lit m 0 = m := by
  intro m
  induction m with
  | nil => intro _; rfl
  | cons c s ih =>
    intro h
    rw [occursTypeAnn, Bool.or_eq_false_iff] at h
    cases hm : matchTypeAnn lit (c :: s) with
    | some r => rw [hm] at h; simp at h
    | none => rw [stripGo, hm]; rw [ih h.2]

/-- When no position of the text matches "library[^,]*,", the insertion
    substitution leaves the text unchanged. -/
theorem insertGo_of_not_occurs :
    ∀ m : List Char, occursLib m = false → insertGo m 0 = m := by
  intro m
  induction m with
  | nil => intro _; rfl
  | cons c s ih =>
    intro h
    rw [occursLib, Bool.or_eq_false_iff] at h
    cases hm : matchLib (c :: s) with
    | some r => rw [hm] at h; simp at h
    | none => rw [insertGo, hm]; rw [ih h.2]

/-- Identity of a single substitution on pattern-free text. -/
theorem stripTypeAnn_of_not_occurs (lit m : List Char) (h : occursTypeAnn lit m = false) :
    stripTypeAnn lit m = m :=
  stripGo_of_not_occurs lit m h

/-- Identity of the insertion substitution on pattern-free text. -/
theorem insertDynamic_of_not_occurs (m : List Char) (h : occursLib m = false) :
    insertDynamic m = m :=
  insertGo_of_not_occurs m h

/-- The accumulator loop of createXCFramework appends one per-platform
    argument block per catalog entry. -/
theorem xcfLoop_eq (path libraryName : String) :
    ∀ (platforms acc : List String),
      xcfLoop path libraryName acc platforms = acc ++ platforms.flatMap (xcfPlatformArgs path libraryName) := by
  intro platforms
  induction platforms with
  | nil => intro acc; simp [xcfLoop]
  | cons p rest ih =>
    intro acc
    rw [xcfLoop, ih]
    simp [xcfPlatformArgs, List.append_assoc]

/-- Closed form of the bundling invocation parameter list. -/
theorem createXCFrameworkParams_eq (path libraryName : String) (platforms : List String) :
    createXCFrameworkParams path platforms libraryName
      = ["xcodebuild", "-create-xcframework"]
        ++ platforms.flatMap (xcfPlatformArgs path libraryName)
        ++ ["-output", path ++ "/" ++ libraryName ++ ".xcframework"] := by
  rw [createXCFrameworkParams, xcfLoop_eq]

/-- Every platform of the catalog contributes its device framework path to
    the bundling invocation, whether or not that path exists. -/
theorem mem_createXCFrameworkParams (path libraryName : String) (platforms : List String)
    (platform : String) (hp : platform ∈ platforms) :
    (path ++ "/" ++ platform ++ "/" ++ libraryName ++ ".framework")
      ∈ createXCFrameworkParams path platforms libraryName := by
  rw [createXCFrameworkParams_eq]
  refine List.mem_append.2 (Or.inl (List.mem_append.2 (Or.inr ?_)))
  refine List.mem_flatMap.2 ⟨platform, hp, ?_⟩
  simp [xcfPlatformArgs]

/-- Existence over a filesystem with one more stored path. -/
theorem fsExists_cons (q : String) (fs : List String) (p : String) :
    fsExists (q :: fs) p = (isUnder q p || fsExists fs p) := rfl

/-- Non-existence is preserved by storing an unrelated path. -/
theorem fsExists_false_cons {q : String} {fs : List String} {p : String}
    (h1 : isUnder q p = false) (h2 : fsExists fs p = false) :
    fsExists (q :: fs) p = false := by
  rw [fsExists_cons, h1, h2]
  rfl

/-- A stored path inside the queried subtree witnesses existence. -/
theorem fsExists_true_head {q : String} {fs : List String} {p : String}
    (h1 : isUnder q p = true) :
    fsExists (q :: fs) p = true := by
  rw [fsExists_cons, h1]
  rfl

/-- Successful os.mkdir on a fresh path with an existing parent. -/
theorem osMkdir_ok (fs : List String) (p0 : String)
    (h1 : fsExists fs (normPath p0) = false)
    (h2 : fsExists fs (parentOf (normPath p0)) = true) :
    osMkdir fs p0 = .ok (normPath p0 :: fs) := by
  simp only [osMkdir, h1, h2]
  rfl

/-- Reduction of Except.bind on a success. -/
theorem except_bind_ok {e : Type} {a b : Type} (x : a) (f : a → Except e b) :
    Except.bind (Except.ok x) f = f x := rfl

/-- Reduction of Except.bind on an error. -/
theorem except_bind_error {e : Type} {a b : Type} (err : e) (f : a → Except e b) :
    Except.bind (Except.error err : Except e a) f = Except.error err := rfl

/-- Processing the platform tvos from any state whose filesystem does not
    already hold the two Modules directories of the tvos archives, with
    both tvos archive invocations succeeding, always dies in the simulator
    build with the KeyError for the constructed destination string. -/
theorem loopIter_tvos_keyerror (env : Env) (st : St)
    (h1 : env.archiveOK "release/tvos" = true)
    (h2 : env.archiveOK "release/tvos_simulator" = true)
    (h3 : fsExists st.fs "/work/release/tvos.xcarchive/Products/usr/local/lib/Lib.framework/Modules" = false)
    (h4 : fsExists st.fs "/work/release/tvos_simulator.xcarchive/Products/usr/local/lib/Lib.framework/Modules" = false) :
    ∃ st2 : St, loopIter env "Lib" st "tvos" = .error (.keyError "tvos Simulator", st2) := by
  obtain ⟨fs, m, tr⟩ := st
  simp only at h3 h4
  -- the simulator stage raises the KeyError from any state whose filesystem
  -- lacks the simulator Modules directory
  have simStage : ∀ (fsX : List String) (mX : List Char) (trX : List Call),
      fsExists fsX (normPath "./release/tvos_simulator.xcarchive/Products/usr/local/lib/Lib.framework/Modules") = false →
      ∃ st2 : St, archiveFramework env "Lib" derivedDataPath "release/tvos_simulator" "tvos Simulator" ⟨fsX, mX, trX⟩
        = .error (.keyError "tvos Simulator", st2) := by
    intro fsX mX trX hq
    have hA2 : fsExists
        (normPath "release/tvos_simulator.xcarchive/Products/usr/local/lib/Lib.framework" ::
         normPath "release/tvos_simulator.xcarchive/dSYMs/Lib.framework.dSYM" :: fsX)
        (normPath "./release/tvos_simulator.xcarchive/Products/usr/local/lib/Lib.framework/Modules") = false := by
      simp only [fsExists_cons]
      rw [(by decide : isUnder (normPath "release/tvos_simulator.xcarchive/Products/usr/local/lib/Lib.framework") (normPath "./release/tvos_simulator.xcarchive/Products/usr/local/lib/Lib.framework/Modules") = false)]
      rw [(by decide : isUnder (normPath "release/tvos_simulator.xcarchive/dSYMs/Lib.framework.dSYM") (normPath "./release/tvos_simulator.xcarchive/Products/usr/local/lib/Lib.framework/Modules") = false)]
      simpa using hq
    have hB2 : fsExists
        (normPath "release/tvos_simulator.xcarchive/Products/usr/local/lib/Lib.framework" ::
         normPath "release/tvos_simulator.xcarchive/dSYMs/Lib.framework.dSYM" :: fsX)
        (parentOf (normPath "./release/tvos_simulator.xcarchive/Products/usr/local/lib/Lib.framework/Modules")) = true := by
      simp only [fsExists_cons]
      rw [(by decide : isUnder (normPath "release/tvos_simulator.xcarchive/Products/usr/local/lib/Lib.framework") (parentOf (normPath "./release/tvos_simulator.xcarchive/Products/usr/local/lib/Lib.framework/Modules")) = true)]
      simp
    simp only [archiveFramework, String.reduceAppend]
    rw [show (env.archiveOK "release/tvos_simulator") = true from h2]
    simp only [eq_self_iff_true, if_true]
    rw [osMkdir_ok _ _ hA2 hB2]
    exact ⟨_, rfl⟩
  -- the device stage succeeds and leaves an explicit state
  have hA : fsExists
      (normPath "release/tvos.xcarchive/Products/usr/local/lib/Lib.framework" ::
       normPath "release/tvos.xcarchive/dSYMs/Lib.framework.dSYM" :: fs)
      (normPath "./release/tvos.xcarchive/Products/usr/local/lib/Lib.framework/Modules") = false :=
    fsExists_false_cons (by decide) (fsExists_false_cons (by decide) h3)
  have hB : fsExists
      (normPath "release/tvos.xcarchive/Products/usr/local/lib/Lib.framework" ::
       normPath "release/tvos.xcarchive/dSYMs/Lib.framework.dSYM" :: fs)
      (parentOf (normPath "./release/tvos.xcarchive/Products/usr/local/lib/Lib.framework/Modules")) = true :=
    fsExists_true_head (by decide)
  have dev : archiveFramework env "Lib" derivedDataPath "release/tvos" "ios" ⟨fs, m, tr⟩
      = .ok ⟨cpAFs
               (normPath "./release/tvos.xcarchive/Products/usr/local/lib/Lib.framework/Modules" ::
                normPath "release/tvos.xcarchive/Products/usr/local/lib/Lib.framework" ::
                normPath "release/tvos.xcarchive/dSYMs/Lib.framework.dSYM" :: fs)
               "./.derivedData/Build/Intermediates.noindex/ArchiveIntermediates/Lib/BuildProductsPath/Release-iphoneos/Lib.swiftmodule"
               "./release/tvos.xcarchive/Products/usr/local/lib/Lib.framework/Modules",
             m,
             (tr ++ [Call.xcodebuildArchive (defaultXcodeBuildOptions "Lib") "ios" "release/tvos"])
               ++ [Call.cpArchive "./.derivedData/Build/Intermediates.noindex/ArchiveIntermediates/Lib/BuildProductsPath/Release-iphoneos/Lib.swiftmodule" "./release/tvos.xcarchive/Products/usr/local/lib/Lib.framework/Modules"]⟩ := by
    simp only [archiveFramework, String.reduceAppend]
    rw [show (env.archiveOK "release/tvos") = true from h1]
    simp only [eq_self_iff_true, if_true]
    rw [osMkdir_ok _ _ hA hB]
    rfl
  have hq : fsExists
      (cpAFs
        (normPath "./release/tvos.xcarchive/Products/usr/local/lib/Lib.framework/Modules" ::
         normPath "release/tvos.xcarchive/Products/usr/local/lib/Lib.framework" ::
         normPath "release/tvos.xcarchive/dSYMs/Lib.framework.dSYM" :: fs)
        "./.derivedData/Build/Intermediates.noindex/ArchiveIntermediates/Lib/BuildProductsPath/Release-iphoneos/Lib.swiftmodule"
        "./release/tvos.xcarchive/Products/usr/local/lib/Lib.framework/Modules")
      (normPath "./release/tvos_simulator.xcarchive/Products/usr/local/lib/Lib.framework/Modules") = false := by
    simp only [cpAFs]
    split
    · exact fsExists_false_cons (by decide) (fsExists_false_cons (by decide) (fsExists_false_cons (by decide) (fsExists_false_cons (by decide) h4)))
    · exact fsExists_false_cons (by decide) (fsExists_false_cons (by decide) (fsExists_false_cons (by decide) h4))
  obtain ⟨st2, hsim⟩ := simStage _ m _ hq
  refine ⟨st2, ?_⟩
  simp only [loopIter, String.reduceAppend]
  rw [dev]
  simp only [except_bind_ok]
  rw [hsim]
  rfl

/-
Claim theorems.
-/

/-- C2: the claim that revert composed with apply is the identity on file
    content fails on the code: for the manifest
    "library(name, type: .static, targets)" the static annotation is
    deleted by apply and never restored by revert, which only strips the
    dynamic annotation, so the round trip yields
    "library(name,  targets)". -/
theorem c2_revert_apply_not_identity_on_static :
    cleanUpPackageManifest (preparePackageManifest manifestStaticExample)
      = "library(name,  targets)".data
    ∧ "library(name,  targets)".data ≠ manifestStaticExample :=
  ⟨rfl, by decide⟩

/-- C3: the filter of desiredPlatforms compares the whole JSON object
    against the string macos and therefore never excludes anything: on a
    list of platform objects the result is the full list of declared
    names, in manifest order, with macos included whenever declared. -/
theorem c3_macos_not_excluded :
    (∀ names : List String, desiredPlatforms (names.map PyVal.dict) = .ok names)
    ∧ desiredPlatforms [PyVal.dict "ios", PyVal.dict "macos", PyVal.dict "watchos"]
        = .ok ["ios", "macos", "watchos"] := by
  constructor
  · intro names
    induction names with
    | nil => rfl
    | cons n rest ih => simp [desiredPlatforms, pyEqMacosStr, ih, Except.map]
  · rfl

/-- C8: createXCFramework builds one bundling invocation whose parameters
    are, per catalog platform in order, the device framework path paired
    with its debug-symbol path and (except for macos) the simulator
    framework path paired with its debug-symbol path, ending with the
    output named path/library.xcframework; the simulator pair is present
    for every platform other than macos and absent for macos. -/
theorem c8_bundle_command_structure :
    (∀ (path : String) (platforms : List String) (libraryName : String),
      createXCFrameworkParams path platforms libraryName
        = ["xcodebuild", "-create-xcframework"]
          ++ platforms.flatMap (xcfPlatformArgs path libraryName)
          ++ ["-output", path ++ "/" ++ libraryName ++ ".xcframework"])
    ∧ (∀ path libraryName : String,
        xcfPlatformArgs path libraryName "macos"
          = ["-framework", path ++ "/" ++ "macos" ++ "/" ++ libraryName ++ ".framework",
             "-debug-symbols", path ++ "/" ++ "macos" ++ "/dSYMs/" ++ libraryName ++ ".framework.dSYM"])
    ∧ (∀ path libraryName platform : String, platform ≠ "macos" →
        xcfPlatformArgs path libraryName platform
          = ["-framework", path ++ "/" ++ platform ++ "/" ++ libraryName ++ ".framework",
             "-debug-symbols", path ++ "/" ++ platform ++ "/dSYMs/" ++ libraryName ++ ".framework.dSYM",
             "-framework", path ++ "/" ++ platform ++ "simulator/" ++ libraryName ++ ".framework",
             "-debug-symbols", path ++ "/" ++ platform ++ "simulator/dSYMs/" ++ libraryName ++ ".framework.dSYM"]) := by
  refine ⟨fun path platforms libraryName => createXCFrameworkParams_eq path libraryName platforms, ?_, ?_⟩
  · intro path libraryName
    simp [xcfPlatformArgs]
  · intro path libraryName platform h
    simp [xcfPlatformArgs, h]

/-- Witness for C8 at a concrete non-macos platform. -/
theorem c8_bundle_command_witness :
    ("ios" : String) ≠ "macos"
    ∧ xcfPlatformArgs "/out" "Lib" "ios"
        = ["-framework", "/out" ++ "/" ++ "ios" ++ "/" ++ "Lib" ++ ".framework",
           "-debug-symbols", "/out" ++ "/" ++ "ios" ++ "/dSYMs/" ++ "Lib" ++ ".framework.dSYM",
           "-framework", "/out" ++ "/" ++ "ios" ++ "simulator/" ++ "Lib" ++ ".framework",
           "-debug-symbols", "/out" ++ "/" ++ "ios" ++ "simulator/dSYMs/" ++ "Lib" ++ ".framework.dSYM"] :=
  ⟨by decide, c8_bundle_command_structure.2.2 "/out" "Lib" "ios" (by decide)⟩

/-- C9 counterexample: the claim that apply and revert change only
    linkage-mode declarations of the form library(..., type: ...) is false:
    the text "a library b, c" contains no such declaration and no type
    annotation at all, yet apply rewrites it, because the insertion
    substitution fires on every occurrence of "library" followed by a
    comma anywhere in the file. -/
theorem c9_counterexample_transforms_touch_unrelated_content :
    preparePackageManifest "a library b, c".data = "a library b, type: .dynamic, c".data
    ∧ "a library b, type: .dynamic, c".data ≠ "a library b, c".data :=
  ⟨rfl, by decide⟩

/-- C9 amended: apply and revert are global textual pattern substitutions,
    so text containing no occurrence of the static pattern, the dynamic
    pattern, or the "library[^,]*," group is left unchanged by apply, and
    text containing no occurrence of the dynamic pattern with trailing
    space is left unchanged by revert. -/
theorem c9_pattern_free_content_unchanged (m : List Char) :
    (occursTypeAnn "static,".data m = false →
     occursTypeAnn "dynamic,".data m = false →
     occursLib m = false →
     preparePackageManifest m = m)
    ∧ (occursTypeAnn "dynamic, ".data m = false →
       cleanUpPackageManifest m = m) := by
  constructor
  · intro h1 h2 h3
    rw [preparePackageManifest, stripTypeAnn_of_not_occurs "static,".data m h1,
        stripTypeAnn_of_not_occurs "dynamic,".data m h2,
        insertDynamic_of_not_occurs m h3]
  · intro h4
    rw [cleanUpPackageManifest, stripTypeAnn_of_not_occurs "dynamic, ".data m h4]

/-- Witness for C9 at a concrete pattern-free manifest. -/
theorem c9_pattern_free_witness :
    (occursTypeAnn "static,".data "let deps = 1".data = false
     ∧ occursTypeAnn "dynamic,".data "let deps = 1".data = false
     ∧ occursLib "let deps = 1".data = false
     ∧ occursTypeAnn "dynamic, ".data "let deps = 1".data = false)
    ∧ preparePackageManifest "let deps = 1".data = "let deps = 1".data
    ∧ cleanUpPackageManifest "let deps = 1".data = "let deps = 1".data :=
  ⟨by decide,
   (c9_pattern_free_content_unchanged "let deps = 1".data).1 (by decide) (by decide) (by decide),
   (c9_pattern_free_content_unchanged "let deps = 1".data).2 (by decide)⟩

/-- C6 counterexample: with a staging tree holding the ios device bundle
    but no ios simulator bundle, the spec-side merge fails with
    IncompletePlatformSet, while the source createXCFramework consults
    nothing and issues the bundling invocation, passing the absent
    simulator path to the external tool. -/
theorem c6_counterexample_merge_proceeds_with_missing_path :
    mergeSpec ["/work", "/work/binaries/ios/Lib.framework"] "/work/binaries" ["ios"] "Lib"
      = .error (.incompletePlatformSet "ios")
    ∧ fsExists ["/work", "/work/binaries/ios/Lib.framework"] "/work/binaries/iossimulator/Lib.framework" = false
    ∧ (createXCFramework (envAllOK []) { fs := ["/work", "/work/binaries/ios/Lib.framework"], manifest := [], trace := [] } "/work/binaries" ["ios"] "Lib").trace
        = [Call.createXcframework (createXCFrameworkParams "/work/binaries" ["ios"] "Lib")]
    ∧ ("/work/binaries" ++ "/" ++ "ios" ++ "simulator/" ++ "Lib" ++ ".framework")
        ∈ createXCFrameworkParams "/work/binaries" ["ios"] "Lib" := by
  refine ⟨rfl, rfl, rfl, ?_⟩
  decide

/-- C6 amended: createXCFramework performs no existence check at merge
    time: it unconditionally issues the single bundling invocation, whose
    parameter list is a function of the catalog and names alone and
    contains the device framework path of every catalog platform whether
    or not that path exists in the staging tree. -/
theorem c6_merge_performs_no_existence_check
    (env : Env) (st : St) (path : String) (platforms : List String) (libraryName : String) :
    (createXCFramework env st path platforms libraryName).trace
      = st.trace ++ [Call.createXcframework (createXCFrameworkParams path platforms libraryName)]
    ∧ ∀ platform ∈ platforms,
        (path ++ "/" ++ platform ++ "/" ++ libraryName ++ ".framework")
          ∈ createXCFrameworkParams path platforms libraryName := by
  refine ⟨rfl, ?_⟩
  intro platform hp
  exact mem_createXCFrameworkParams path libraryName platforms platform hp

/-- Witness for C6 at a concrete catalog. -/
theorem c6_merge_witness :
    (createXCFramework (envAllOK []) { fs := ["/work"], manifest := [], trace := [] } "/work/binaries" ["ios"] "Lib").trace
      = [] ++ [Call.createXcframework (createXCFrameworkParams "/work/binaries" ["ios"] "Lib")]
    ∧ ("/work/binaries" ++ "/" ++ "ios" ++ "/" ++ "Lib" ++ ".framework")
        ∈ createXCFrameworkParams "/work/binaries" ["ios"] "Lib" :=
  ⟨(c6_merge_performs_no_existence_check (envAllOK []) { fs := ["/work"], manifest := [], trace := [] } "/work/binaries" ["ios"] "Lib").1,
   (c6_merge_performs_no_existence_check (envAllOK []) { fs := ["/work"], manifest := [], trace := [] } "/work/binaries" ["ios"] "Lib").2 "ios" (by decide)⟩

/-- C1: the claim that the manifest mutation is reverted exactly once on
    every termination fails on the code: on the failing run with catalog
    [tvos] (all external tools succeeding) the process dies with the
    destination KeyError before the cleanup block, and the manifest file
    is left in the mutated forced-dynamic state. -/
theorem c1_failed_run_leaves_manifest_mutated :
    runOutcome (pipeline (envAllOK [PyVal.dict "tvos"]) "Lib" manifestPlainExample ["/work"])
      = .error (.keyError "tvos Simulator", "library(name, type: .dynamic, targets)".data)
    ∧ "library(name, type: .dynamic, targets)".data ≠ manifestPlainExample :=
  ⟨rfl, by decide⟩

/-- C4: the claim that a non-zero archive status makes the run fail with
    BuildFailed and abort fails on the code: the script discards the exit
    status of every subprocess.  With the ios device archive invocation
    failing but a stale framework directory present from an earlier run,
    the pipeline carries on, runs the simulator build, invokes the
    bundling tool and terminates successfully; with a clean tree the same
    failure surfaces only later as a FileNotFoundError from os.mkdir, not
    as an abort at the archive invocation. -/
theorem c4_nonzero_archive_status_does_not_abort :
    envC4.archiveOK "release/ios" = false
    ∧ (pipeline envC4 "Lib" "m".data fsStale).map
        (fun st => (archiveCalls st.trace, mergeInvoked st.trace))
        = .ok ([("release/ios", "ios"), ("release/ios_simulator", "ios Simulator")], true)
    ∧ (pipeline envC4 "Lib" "m".data ["/work"]).mapError
        (fun es => (es.1, archiveCalls es.2.trace, mergeInvoked es.2.trace))
        = .error (.fileNotFound "/work/release/ios.xcarchive/Products/usr/local/lib/Lib.framework/Modules",
                  [("release/ios", "ios")], false) := by
  refine ⟨rfl, rfl, ?_⟩
  rfl

/-- C5: the claim that the device-variant build of platform p uses the
    destination of p fails on the code: the main loop hardcodes the
    destination string ios for every device archive, so the watchos run
    issues its device archive with destination ios. -/
theorem c5_device_build_uses_ios_destination :
    (pipeline (envAllOK [PyVal.dict "watchos"]) "Lib" "m".data ["/work"]).map
        (fun st => archiveCalls st.trace)
      = .ok [("release/watchos", "ios"), ("release/watchos_simulator", "watchos Simulator")]
    ∧ ("ios" : String) ≠ "watchos" :=
  ⟨rfl, by decide⟩

/-- C7: scenario A (catalog [ios], manifest starting with a static
    annotation): the run succeeds and the published release directory
    contains exactly the merged bundle, but the manifest content differs
    from its pre-run content because the static annotation was deleted by
    apply and not restored by revert. -/
theorem c7_scenario_a_manifest_not_restored :
    (pipeline (envAllOK [PyVal.dict "ios"]) "Lib" manifestStaticExample ["/work"]).map
        (fun st => (st.manifest, st.fs.filter (fun q => isUnder q (pwd ++ "/release"))))
      = .ok ("library(name,  targets)".data,
             ["/work/release/Lib.xcframework", "/work/release"])
    ∧ "library(name,  targets)".data ≠ manifestStaticExample :=
  ⟨rfl, by decide⟩

/-- C10: the destination table misses the key the main loop constructs for
    the tvos simulator: the table holds "tvos simulator" (lowercase s)
    while the loop builds "tvos Simulator", so whenever the build loop
    processes tvos (from any state not already holding the tvos archive
    Modules directories, with the tvos archive invocations succeeding) the
    simulator-variant build raises an unhandled KeyError rather than any
    of the specified error kinds; also shown end to end for the catalogs
    [tvos] and [ios, tvos] and for every manifest content. -/
theorem c10_tvos_simulator_key_mismatch :
    destLookup "tvos Simulator" = none
    ∧ destLookup "tvos simulator" = some "tvossimulator"
    ∧ (∀ (env : Env) (st : St),
        env.archiveOK "release/tvos" = true →
        env.archiveOK "release/tvos_simulator" = true →
        fsExists st.fs "/work/release/tvos.xcarchive/Products/usr/local/lib/Lib.framework/Modules" = false →
        fsExists st.fs "/work/release/tvos_simulator.xcarchive/Products/usr/local/lib/Lib.framework/Modules" = false →
        ∃ st2 : St, loopIter env "Lib" st "tvos" = .error (.keyError "tvos Simulator", st2))
    ∧ (∀ m : List Char, ∃ st : St,
        pipeline (envAllOK [PyVal.dict "tvos"]) "Lib" m ["/work"]
          = .error (.keyError "tvos Simulator", st)
        ∧ st.manifest = preparePackageManifest m)
    ∧ (∀ m : List Char, ∃ st : St,
        pipeline (envAllOK [PyVal.dict "ios", PyVal.dict "tvos"]) "Lib" m ["/work"]
          = .error (.keyError "tvos Simulator", st)
        ∧ st.manifest = preparePackageManifest m) := by
  refine ⟨rfl, rfl, loopIter_tvos_keyerror, fun m => ⟨_, rfl, rfl⟩, fun m => ⟨_, rfl, rfl⟩⟩

/-- Witness for C10 at a concrete state for the general part. -/
theorem c10_tvos_simulator_key_mismatch_witness :
    ((envAllOK []).archiveOK "release/tvos" = true
     ∧ (envAllOK []).archiveOK "release/tvos_simulator" = true
     ∧ fsExists ["/work"] "/work/release/tvos.xcarchive/Products/usr/local/lib/Lib.framework/Modules" = false
     ∧ fsExists ["/work"] "/work/release/tvos_simulator.xcarchive/Products/usr/local/lib/Lib.framework/Modules" = false)
    ∧ ∃ st2 : St, loopIter (envAllOK []) "Lib" ⟨["/work"], [], []⟩ "tvos"
        = .error (.keyError "tvos Simulator", st2) :=
  ⟨⟨rfl, rfl, by decide, by decide⟩,
   c10_tvos_simulator_key_mismatch.2.2.1 (envAllOK []) ⟨["/work"], [], []⟩ rfl rfl (by decide) (by decide)⟩
